import Mathlib

/-!
Verification development for the VoiceForge audio transformation pipeline
(`backend/audio_processing.py`).

The sample buffer is modelled as a list of rationals (exact arithmetic in
place of IEEE floats).  Library primitives that the pipeline merely invokes
(librosa decode, time-stretch, pitch-shift, scipy Butterworth coefficient
design, numpy tanh, soundfile WAV encoding) are abstracted as fields of a
`Primitives` record, while the code of the repository itself
(`_safe_normalize`, `_apply_noise_gate` with its numpy 20th-percentile,
`_apply_filter` with a causal second-order IIR recursion, and
`process_audio` with its guards, parameter mappings and stage order) is
translated definition by definition.
-/

/-- A mono sample buffer: the numpy float array of the source. -/
abbrev Audio := List ℚ

/-- Raw encoded audio bytes. -/
abbrev Bytes := List ℕ

/-- A decode failure of `librosa.load` (corrupt or unsupported input). -/
inductive DecodeErr
  | badContainer : DecodeErr
deriving DecidableEq, Repr

/-- A numeric failure of a DSP stage (librosa raises its own error types,
distinct from the decode errors). -/
inductive ProcErr
  | stageFailed : ProcErr
deriving DecidableEq, Repr

/-- The error taxonomy visible to a caller of `process_audio`: a decode
failure is a distinct kind from a DSP processing failure. -/
inductive PipelineError
  | decodeError : DecodeErr → PipelineError
  | processingError : ProcErr → PipelineError
deriving DecidableEq, Repr

/-- Filter kind: the `btype` string argument of `scipy.signal.butter`. -/
inductive BType
  | highpass : BType
  | lowpass : BType
deriving DecidableEq, Repr

/-- Coefficients of a second-order (biquad) IIR filter, as returned by
`scipy.signal.butter(2, wn, btype)`: numerator `b0 b1 b2`, denominator
`a0 a1 a2`. -/
structure Biquad where
  b0 : ℚ
  b1 : ℚ
  b2 : ℚ
  a0 : ℚ
  a1 : ℚ
  a2 : ℚ
deriving DecidableEq, Repr

/-- The eight-field settings record (`VoiceSettings` dataclass). -/
structure VoiceSettings where
  pitch : ℚ
  timbre : ℚ
  depth : ℚ
  speed : ℚ
  emotion : ℚ
  morph : ℚ
  noise_reduction : ℚ
  clarity : ℚ
deriving DecidableEq, Repr

/-- The external library primitives the pipeline calls: `librosa.load`
(decode and resample to 44100 Hz mono, may fail), `librosa.effects`
stretch and shift (may raise a processing error), `scipy.signal.butter`
coefficient design, `numpy.tanh`, and `soundfile.write` WAV encoding. -/
structure Primitives where
  load : Bytes → Except DecodeErr Audio
  timeStretch : Audio → ℚ → Except ProcErr Audio
  pitchShift : Audio → ℚ → ℚ → Except ProcErr Audio
  butter : ℚ → BType → Biquad
  tanh : ℚ → ℚ
  encodeWav : Audio → ℚ → Bytes

/-- Peak absolute sample value: `np.max(np.abs(audio)) if audio.size else 0`
(for a nonempty buffer all absolute values are nonnegative, so folding
`max` from `0` computes exactly the numpy maximum). -/
def peakAbs (audio : Audio) : ℚ :=
  audio.foldr (fun x m => max |x| m) 0

/-- `_safe_normalize`: leave a silent (zero-peak or empty) buffer
unchanged, otherwise divide every sample by the peak. -/
def safe_normalize (audio : Audio) : Audio :=
  let peak := peakAbs audio
  if peak = 0 then audio else audio.map (fun x => x / peak)

/-- `np.percentile(l, 20)` with the default linear interpolation: sort
ascending, take position `(n - 1) * 20 / 100`, and interpolate linearly
between the two neighbouring order statistics. Exact over ℚ. -/
def percentile20 (l : List ℚ) : ℚ :=
  match l.length with
  | 0 => 0
  | Nat.succ m =>
    let s := List.insertionSort (· ≤ ·) l
    let pos : ℚ := (m : ℚ) / 5
    let i : ℕ := (⌊pos⌋).toNat
    let g : ℚ := pos - (i : ℚ)
    let lo := s.getD i 0
    let hi := s.getD (i + 1) lo
    lo + g * (hi - lo)

/-- `_apply_noise_gate`: threshold at the 20th percentile of the absolute
samples scaled by `1 + strength`; `np.where(np.abs(audio) < threshold,
audio * 0.1, audio)`. -/
def apply_noise_gate (audio : Audio) (strength : ℚ) : Audio :=
  let threshold := percentile20 (audio.map (fun x => |x|)) * (1 + strength)
  let gated := audio.map (fun x => if |x| < threshold then x * (1 / 10) else x)
  gated

/-- The recursion of `scipy.signal.lfilter` for a biquad in direct form II
transposed, with coefficients already normalized by `a0`: causal, single
pass, state `z1 z2` initialised to zero. -/
def lfilterGo (b0 b1 b2 a1 a2 : ℚ) : List ℚ → ℚ → ℚ → List ℚ
  | [], _, _ => []
  | x :: xs, z1, z2 =>
    let y := b0 * x + z1
    lfilterGo b0 b1 b2 a1 a2 xs (b1 * x + z2 - a1 * y) (b2 * x - a2 * y) |> (y :: ·)

/-- `scipy.signal.lfilter(b, a, audio)` for second-order coefficients:
normalize by `a0` and run the causal difference equation. -/
def lfilter (c : Biquad) (x : Audio) : Audio :=
  lfilterGo (c.b0 / c.a0) (c.b1 / c.a0) (c.b2 / c.a0) (c.a1 / c.a0) (c.a2 / c.a0) x 0 0

/-- `_apply_filter`: design a 2nd-order Butterworth filter at the cutoff
normalized to Nyquist (`sr / 2`), filter the buffer causally, and add the
filtered signal scaled by `gain` back onto the original. -/
def apply_filter (butter : ℚ → BType → Biquad) (audio : Audio) (sr : ℚ)
    (cutoff : ℚ) (btype : BType) (gain : ℚ) : Audio :=
  let c := butter (cutoff / (sr / 2)) btype
  let filtered := lfilter c audio
  List.zipWith (fun x f => x + f * gain) audio filtered

/-- Time-stretch stage: `if settings.speed != 1:
audio = librosa.effects.time_stretch(audio, rate=max(0.5, settings.speed))`. -/
def stretch_stage (P : Primitives) (s : VoiceSettings) (audio : Audio) :
    Except ProcErr Audio :=
  if s.speed ≠ 1 then P.timeStretch audio (max (1 / 2 : ℚ) s.speed)
  else Except.ok audio

/-- Pitch-shift stage: the combined amount `pitch + morph / 25` in
semitones; applied only when nonzero. -/
def pitch_stage (P : Primitives) (s : VoiceSettings) (sr : ℚ) (audio : Audio) :
    Except ProcErr Audio :=
  let morph_shift := s.morph / 25
  let pitch_shift := s.pitch + morph_shift
  if pitch_shift ≠ 0 then P.pitchShift audio sr pitch_shift
  else Except.ok audio

/-- Timbre stage: high-pass emphasis at 2800 Hz with gain `timbre / 80`,
applied when `timbre != 0`. -/
def timbre_stage (P : Primitives) (s : VoiceSettings) (sr : ℚ) (audio : Audio) :
    Audio :=
  if s.timbre ≠ 0 then
    apply_filter P.butter audio sr 2800 BType.highpass (s.timbre / 80)
  else audio

/-- Depth stage: low-pass emphasis at 180 Hz with gain `depth / 60`,
applied when `depth != 0`. -/
def depth_stage (P : Primitives) (s : VoiceSettings) (sr : ℚ) (audio : Audio) :
    Audio :=
  if s.depth ≠ 0 then
    apply_filter P.butter audio sr 180 BType.lowpass (s.depth / 60)
  else audio

/-- Emotion stage: `np.tanh(audio * (1 + emotion / 120))` sample-wise,
applied when `emotion > 0`. -/
def emotion_stage (P : Primitives) (s : VoiceSettings) (audio : Audio) : Audio :=
  if s.emotion > 0 then
    let intensity := s.emotion / 120
    audio.map (fun x => P.tanh (x * (1 + intensity)))
  else audio

/-- Noise-gate stage: `_apply_noise_gate(audio, noise_reduction / 100)`,
applied when `noise_reduction > 0`. -/
def gate_stage (s : VoiceSettings) (audio : Audio) : Audio :=
  if s.noise_reduction > 0 then apply_noise_gate audio (s.noise_reduction / 100)
  else audio

/-- Clarity stage: high-pass emphasis at 3200 Hz with gain `clarity / 120`,
applied when `clarity > 0`. -/
def clarity_stage (P : Primitives) (s : VoiceSettings) (sr : ℚ) (audio : Audio) :
    Audio :=
  if s.clarity > 0 then
    apply_filter P.butter audio sr 3200 BType.highpass (s.clarity / 120)
  else audio

/-- `process_audio`: decode at a fixed 44100 Hz mono, run the fixed stage
order stretch, pitch, timbre, depth, emotion, gate, clarity, normalize,
and encode the result as WAV at the same rate.  A `librosa.load` failure
surfaces as a decode error; a stretch or shift failure as a processing
error. -/
def process_audio (P : Primitives) (file_bytes : Bytes) (settings : VoiceSettings) :
    Except PipelineError Bytes :=
  match P.load file_bytes with
  | Except.error e => Except.error (PipelineError.decodeError e)
  | Except.ok audio0 =>
    match stretch_stage P settings audio0 with
    | Except.error e => Except.error (PipelineError.processingError e)
    | Except.ok audio1 =>
      match pitch_stage P settings 44100 audio1 with
      | Except.error e => Except.error (PipelineError.processingError e)
      | Except.ok audio2 =>
        let audio3 := timbre_stage P settings 44100 audio2
        let audio4 := depth_stage P settings 44100 audio3
        let audio5 := emotion_stage P settings audio4
        let audio6 := gate_stage settings audio5
        let audio7 := clarity_stage P settings 44100 audio6
        let audio8 := safe_normalize audio7
        Except.ok (P.encodeWav audio8 44100)

/-- A concrete decoded buffer used to exercise the pipeline. -/
def sampleAudio : Audio := [1, -1/2, 1/4, 0]

/-- A concrete instantiation of the library primitives: empty byte input
fails to decode, the stretch and shift primitives are benign, the filter
design returns a pass-through biquad, saturation is the identity curve. -/
def prims0 : Primitives where
  load := fun b => if b = [] then Except.error DecodeErr.badContainer else Except.ok sampleAudio
  timeStretch := fun a _ => Except.ok a
  pitchShift := fun a _ _ => Except.ok a
  butter := fun _ _ => ⟨1, 0, 0, 1, 0, 0⟩
  tanh := fun x => x
  encodeWav := fun a _ => [a.length]

/-- The all-neutral settings record of the identity property. -/
def settings0 : VoiceSettings := ⟨0, 0, 0, 1, 0, 0, 0, 0⟩

/-- A buffer with a spread of absolute amplitudes for gate tests. -/
def gateAudio : Audio := [1, 1/100, 1/2, 2/100, 3]

/-- Settings that activate only the noise gate (strength 50). -/
def gateSettings : VoiceSettings := ⟨0, 0, 0, 1, 0, 0, 50, 0⟩

/-- Settings with pitch 2 and morph 0. -/
def pitchSettings : VoiceSettings := ⟨2, 0, 0, 1, 0, 0, 0, 0⟩

/-- Settings with speed 1/10, below the 0.5 clamp. -/
def speedSettings : VoiceSettings := ⟨0, 0, 0, 1/10, 0, 0, 0, 0⟩

/-- Settings that activate only the emotion stage (intensity 50). -/
def emoSettings : VoiceSettings := ⟨0, 0, 0, 1, 50, 0, 0, 0⟩

/-- Settings that activate the timbre, depth and clarity filter stages. -/
def filterSettings : VoiceSettings := ⟨0, 8, 6, 1, 0, 0, 0, 12⟩

/-! ### Supporting lemmas -/

lemma lfilterGo_length (b0 b1 b2 a1 a2 : ℚ) :
    ∀ (xs : List ℚ) (z1 z2 : ℚ), (lfilterGo b0 b1 b2 a1 a2 xs z1 z2).length = xs.length := by
  intro xs
  induction xs with
  | nil => intro z1 z2; rfl
  | cons x xt ih => intro z1 z2; simp [lfilterGo, ih]

lemma lfilter_length (c : Biquad) (x : Audio) : (lfilter c x).length = x.length := by
  unfold lfilter
  exact lfilterGo_length _ _ _ _ _ x 0 0

lemma getD_map_zero (f : ℚ → ℚ) :
    ∀ (l : List ℚ) (i : ℕ), i < l.length → (l.map f).getD i 0 = f (l.getD i 0) := by
  intro l
  induction l with
  | nil => intro i hi; simp at hi
  | cons a t ih =>
    intro i hi
    cases i with
    | zero => simp
    | succ n =>
      simp only [List.map_cons, List.getD_cons_succ]
      exact ih n (by simpa using hi)

lemma getD_zipWith_addMul (g : ℚ) :
    ∀ (xs ys : List ℚ) (i : ℕ), i < xs.length → i < ys.length →
      (List.zipWith (fun x f => x + f * g) xs ys).getD i 0 =
        xs.getD i 0 + ys.getD i 0 * g := by
  intro xs
  induction xs with
  | nil => intro ys i hi _; simp at hi
  | cons x xt ih =>
    intro ys i hi hj
    cases ys with
    | nil => simp at hj
    | cons y yt =>
      cases i with
      | zero => simp
      | succ n =>
        simp only [List.zipWith_cons_cons, List.getD_cons_succ]
        exact ih yt n (by simpa using hi) (by simpa using hj)

lemma peakAbs_nil : peakAbs [] = 0 := rfl

lemma peakAbs_cons (a : ℚ) (t : Audio) : peakAbs (a :: t) = max |a| (peakAbs t) := rfl

lemma peakAbs_nonneg (l : Audio) : 0 ≤ peakAbs l := by
  induction l with
  | nil => simp [peakAbs_nil]
  | cons a t ih => rw [peakAbs_cons]; exact le_trans ih (le_max_right _ _)

lemma abs_le_peakAbs (l : Audio) (x : ℚ) (hx : x ∈ l) : |x| ≤ peakAbs l := by
  induction l with
  | nil => simp at hx
  | cons a t ih =>
    rw [peakAbs_cons]
    rcases List.mem_cons.mp hx with h | h
    · rw [h]; exact le_max_left _ _
    · exact le_trans (ih h) (le_max_right _ _)

lemma peakAbs_map_div (l : Audio) (p : ℚ) (hp : 0 < p) :
    peakAbs (l.map (fun x => x / p)) = peakAbs l / p := by
  induction l with
  | nil => simp [peakAbs_nil]
  | cons a t ih =>
    simp only [List.map_cons, peakAbs_cons, ih]
    rw [abs_div, abs_of_pos hp, max_div_div_right hp.le]

lemma mem_safe_normalize_abs_le_one (l : Audio) (x : ℚ) (hx : x ∈ safe_normalize l) :
    |x| ≤ 1 := by
  unfold safe_normalize at hx
  by_cases h : peakAbs l = 0
  · simp only [h, if_pos rfl] at hx
    have h1 : |x| ≤ peakAbs l := abs_le_peakAbs l x hx
    rw [h] at h1
    linarith
  · have hp : 0 < peakAbs l := lt_of_le_of_ne (peakAbs_nonneg l) (Ne.symm h)
    simp only [if_neg h] at hx
    obtain ⟨y, hy, rfl⟩ := List.mem_map.mp hx
    rw [abs_div, abs_of_pos hp]
    exact (div_le_one hp).mpr (abs_le_peakAbs l y hy)

lemma peakAbs_safe_normalize (l : Audio) (h : peakAbs l ≠ 0) :
    peakAbs (safe_normalize l) = 1 := by
  have hp : 0 < peakAbs l := lt_of_le_of_ne (peakAbs_nonneg l) (Ne.symm h)
  unfold safe_normalize
  simp only [if_neg h]
  rw [peakAbs_map_div l _ hp, div_self h]

lemma safe_normalize_of_peak_one (l : Audio) (h : peakAbs l = 1) :
    safe_normalize l = l := by
  unfold safe_normalize
  simp [h]

lemma process_audio_congr (P : Primitives) (b : Bytes) (s s' : VoiceSettings)
    (hst : stretch_stage P s = stretch_stage P s')
    (hpi : pitch_stage P s 44100 = pitch_stage P s' 44100)
    (htim : timbre_stage P s 44100 = timbre_stage P s' 44100)
    (hdep : depth_stage P s 44100 = depth_stage P s' 44100)
    (hemo : emotion_stage P s = emotion_stage P s')
    (hgat : gate_stage s = gate_stage s')
    (hcla : clarity_stage P s 44100 = clarity_stage P s' 44100) :
    process_audio P b s = process_audio P b s' := by
  unfold process_audio
  rw [hst, hpi, htim, hdep, hemo, hgat, hcla]

lemma process_audio_settings0 (P : Primitives) (b : Bytes) (a : Audio)
    (h : P.load b = Except.ok a) :
    process_audio P b settings0 = Except.ok (P.encodeWav (safe_normalize a) 44100) := by
  unfold process_audio stretch_stage pitch_stage timbre_stage depth_stage emotion_stage
    gate_stage clarity_stage
  rw [h]
  simp [settings0]

/-! ### Claim theorems -/

/-- C8: silence safety of `_safe_normalize` — a buffer with zero peak
(all-zero or empty) is returned unchanged with no division, and a buffer
with nonzero peak is divided sample-wise by the peak so that its maximum
absolute value becomes exactly 1. -/
theorem normalize_silence_safety (audio : Audio) :
    (peakAbs audio = 0 → safe_normalize audio = audio) ∧
    (peakAbs audio ≠ 0 →
      safe_normalize audio = audio.map (fun x => x / peakAbs audio) ∧
      peakAbs (safe_normalize audio) = 1) := by
  constructor
  · intro h
    unfold safe_normalize
    simp [h]
  · intro h
    refine ⟨?_, peakAbs_safe_normalize audio h⟩
    unfold safe_normalize
    simp [h]

/-- Witness for C8 at a concrete silent buffer and a concrete loud one. -/
theorem normalize_silence_safety_witness :
    (peakAbs [0, 0, 0] = 0 ∧ safe_normalize [0, 0, 0] = [0, 0, 0]) ∧
    (peakAbs [1, -2] ≠ 0 ∧ peakAbs (safe_normalize [1, -2]) = 1) :=
  ⟨⟨by decide, (normalize_silence_safety [0, 0, 0]).1 (by decide)⟩,
   ⟨by decide, ((normalize_silence_safety [1, -2]).2 (by decide)).2⟩⟩

/-- C9: `_safe_normalize` is idempotent — normalizing an already
normalized buffer changes nothing (a zero-peak buffer is fixed, and a
nonzero buffer normalizes to peak 1, so the second pass divides by 1). -/
theorem normalize_idempotent (audio : Audio) :
    safe_normalize (safe_normalize audio) = safe_normalize audio := by
  by_cases h : peakAbs audio = 0
  · have h1 : safe_normalize audio = audio := by
      unfold safe_normalize
      simp [h]
    rw [h1]
    exact h1
  · exact safe_normalize_of_peak_one _ (peakAbs_safe_normalize audio h)

/-- C10: output-range invariant — whenever `process_audio` succeeds, the
buffer handed to the WAV encoder is the output of the unconditional
normalize stage, so every sample has absolute value at most 1. -/
theorem output_range_invariant (P : Primitives) (b : Bytes) (s : VoiceSettings)
    (out : Bytes) (h : process_audio P b s = Except.ok out) :
    ∃ final : Audio, out = P.encodeWav final 44100 ∧ ∀ x ∈ final, |x| ≤ 1 := by
  rw [process_audio] at h
  cases hl : P.load b with
  | error e => simp only [hl] at h; exact Except.noConfusion h
  | ok a0 =>
    simp only [hl] at h
    cases h1 : stretch_stage P s a0 with
    | error e => simp only [h1] at h; exact Except.noConfusion h
    | ok a1 =>
      simp only [h1] at h
      cases h2 : pitch_stage P s 44100 a1 with
      | error e => simp only [h2] at h; exact Except.noConfusion h
      | ok a2 =>
        simp only [h2, Except.ok.injEq] at h
        refine ⟨safe_normalize (clarity_stage P s 44100 (gate_stage s (emotion_stage P s
          (depth_stage P s 44100 (timbre_stage P s 44100 a2))))), h.symm, ?_⟩
        intro x hx
        exact mem_safe_normalize_abs_le_one _ x hx

/-- Witness for C10: a concrete successful run of the pipeline. -/
theorem output_range_invariant_witness :
    process_audio prims0 [1] settings0 =
      Except.ok (prims0.encodeWav (safe_normalize sampleAudio) 44100) ∧
    ∃ final : Audio, prims0.encodeWav (safe_normalize sampleAudio) 44100 =
        prims0.encodeWav final 44100 ∧ ∀ x ∈ final, |x| ≤ 1 :=
  ⟨process_audio_settings0 prims0 [1] sampleAudio rfl,
   output_range_invariant prims0 [1] settings0 _
     (process_audio_settings0 prims0 [1] sampleAudio rfl)⟩

/-- C1: identity property — with pitch, timbre, depth, emotion, morph,
noise reduction and clarity all 0 and speed 1, every conditional stage is
skipped and the pipeline returns exactly the decoded buffer normalized
and encoded. -/
theorem identity_property (P : Primitives) (b : Bytes) (s : VoiceSettings) (a : Audio)
    (hload : P.load b = Except.ok a)
    (hpitch : s.pitch = 0) (htimbre : s.timbre = 0) (hdepth : s.depth = 0)
    (hspeed : s.speed = 1) (hemotion : s.emotion = 0) (hmorph : s.morph = 0)
    (hnr : s.noise_reduction = 0) (hclarity : s.clarity = 0) :
    process_audio P b s = Except.ok (P.encodeWav (safe_normalize a) 44100) := by
  unfold process_audio stretch_stage pitch_stage timbre_stage depth_stage emotion_stage
    gate_stage clarity_stage
  rw [hload]
  simp [hpitch, htimbre, hdepth, hspeed, hemotion, hmorph, hnr, hclarity]

/-- Witness for C1: the neutral settings on a concrete decodable input. -/
theorem identity_property_witness :
    prims0.load [1] = Except.ok sampleAudio ∧
    settings0.pitch = 0 ∧ settings0.timbre = 0 ∧ settings0.depth = 0 ∧
    settings0.speed = 1 ∧ settings0.emotion = 0 ∧ settings0.morph = 0 ∧
    settings0.noise_reduction = 0 ∧ settings0.clarity = 0 ∧
    process_audio prims0 [1] settings0 =
      Except.ok (prims0.encodeWav (safe_normalize sampleAudio) 44100) :=
  ⟨rfl, rfl, rfl, rfl, rfl, rfl, rfl, rfl, rfl,
   identity_property prims0 [1] settings0 sampleAudio rfl rfl rfl rfl rfl rfl rfl rfl rfl⟩

/-- C2: noise-gate correctness — when `noise_reduction > 0` the stage
thresholds at the 20th percentile of the absolute samples times
`1 + noise_reduction / 100`, scales samples strictly below the threshold
to exactly one tenth, leaves the rest unchanged, and when
`noise_reduction <= 0` the stage leaves the buffer untouched. -/
theorem noise_gate_correct (audio : Audio) (s : VoiceSettings) (i : ℕ)
    (hi : i < audio.length) :
    (gate_stage s audio).length = audio.length ∧
    (gate_stage s audio).getD i 0 =
      (if 0 < s.noise_reduction then
        (if |audio.getD i 0| <
            percentile20 (audio.map (fun x => |x|)) * (1 + s.noise_reduction / 100)
         then audio.getD i 0 * (1 / 10) else audio.getD i 0)
       else audio.getD i 0) := by
  by_cases h : 0 < s.noise_reduction
  · simp only [gate_stage, apply_noise_gate, if_pos h]
    refine ⟨by simp, ?_⟩
    exact getD_map_zero _ audio i hi
  · simp only [gate_stage, if_neg h]
    exact ⟨trivial, trivial⟩

/-- Witness for C2: the gate at strength 50 on a concrete buffer. -/
theorem noise_gate_correct_witness :
    1 < gateAudio.length ∧
    ((gate_stage gateSettings gateAudio).length = gateAudio.length ∧
      (gate_stage gateSettings gateAudio).getD 1 0 =
        (if 0 < gateSettings.noise_reduction then
          (if |gateAudio.getD 1 0| <
              percentile20 (gateAudio.map (fun x => |x|)) *
                (1 + gateSettings.noise_reduction / 100)
           then gateAudio.getD 1 0 * (1 / 10) else gateAudio.getD 1 0)
         else gateAudio.getD 1 0)) :=
  ⟨by decide, noise_gate_correct gateAudio gateSettings 1 (by decide)⟩

/-- C3: pitch and morph act only through the combined semitone amount
`pitch + morph / 25`, so two settings with the same combined amount give
the same pipeline output, and a zero combined amount skips the
pitch-shift stage. -/
theorem pitch_morph_combination (P : Primitives) (b : Bytes) (s : VoiceSettings)
    (paudio : Audio) (p m : ℚ)
    (hp : s.pitch + s.morph / 25 = p + m / 25) :
    process_audio P b s = process_audio P b { s with pitch := p, morph := m } ∧
    pitch_stage P s 44100 paudio =
      (if s.pitch + s.morph / 25 = 0 then Except.ok paudio
       else P.pitchShift paudio 44100 (s.pitch + s.morph / 25)) := by
  constructor
  · apply process_audio_congr
    · funext audio; simp [stretch_stage]
    · funext audio; simp only [pitch_stage]; rw [hp]
    · funext audio; simp [timbre_stage]
    · funext audio; simp [depth_stage]
    · funext audio; simp [emotion_stage]
    · funext audio; simp [gate_stage]
    · funext audio; simp [clarity_stage]
  · by_cases h0 : s.pitch + s.morph / 25 = 0
    · simp [pitch_stage, h0]
    · simp [pitch_stage, h0]

/-- Witness for C3: pitch 2, morph 0 against pitch 0, morph 50. -/
theorem pitch_morph_combination_witness :
    pitchSettings.pitch + pitchSettings.morph / 25 = 0 + 50 / 25 ∧
    (process_audio prims0 [1] pitchSettings =
        process_audio prims0 [1] { pitchSettings with pitch := 0, morph := 50 } ∧
      pitch_stage prims0 pitchSettings 44100 sampleAudio =
        (if pitchSettings.pitch + pitchSettings.morph / 25 = 0 then Except.ok sampleAudio
         else prims0.pitchShift sampleAudio 44100
           (pitchSettings.pitch + pitchSettings.morph / 25))) :=
  ⟨by norm_num [pitchSettings],
   pitch_morph_combination prims0 [1] pitchSettings sampleAudio 0 50
     (by norm_num [pitchSettings])⟩

/-- C4: the stretch rate is clamped below at 0.5, so any two
below-or-at-clamp speeds other than 1 give identical pipelines, and
speed 1 skips the time-stretch stage entirely. -/
theorem speed_clamp (P : Primitives) (b : Bytes) (s : VoiceSettings) (v : ℚ)
    (saudio : Audio) (h1 : s.speed ≠ 1) (h2 : v ≠ 1)
    (hc : max (1 / 2 : ℚ) s.speed = max (1 / 2 : ℚ) v) :
    process_audio P b s = process_audio P b { s with speed := v } ∧
    stretch_stage P { s with speed := 1 } saudio = Except.ok saudio := by
  constructor
  · apply process_audio_congr
    · funext audio
      rw [stretch_stage, stretch_stage]
      have hv : ({ s with speed := v } : VoiceSettings).speed = v := rfl
      rw [hv, if_pos h1, if_pos h2, hc]
    · funext audio; simp [pitch_stage]
    · funext audio; simp [timbre_stage]
    · funext audio; simp [depth_stage]
    · funext audio; simp [emotion_stage]
    · funext audio; simp [gate_stage]
    · funext audio; simp [clarity_stage]
  · simp [stretch_stage]

/-- Witness for C4: speed 1/10 against the clamp value 1/2, and the
skipped stage at speed 1. -/
theorem speed_clamp_witness :
    speedSettings.speed ≠ 1 ∧ (1 / 2 : ℚ) ≠ 1 ∧
    max (1 / 2 : ℚ) speedSettings.speed = max (1 / 2 : ℚ) (1 / 2 : ℚ) ∧
    (process_audio prims0 [1] speedSettings =
        process_audio prims0 [1] { speedSettings with speed := 1 / 2 } ∧
      stretch_stage prims0 { speedSettings with speed := 1 } sampleAudio =
        Except.ok sampleAudio) :=
  ⟨by norm_num [speedSettings], by norm_num,
   by norm_num [speedSettings, max_def],
   speed_clamp prims0 [1] speedSettings (1 / 2) sampleAudio
     (by norm_num [speedSettings]) (by norm_num) (by norm_num [speedSettings, max_def])⟩

/-- C5: error discrimination — `process_audio` reports a decode error
exactly when the decode primitive fails on the input bytes, and any
processing error implies the input decoded successfully, so a caller can
tell client-input failures from DSP-stage failures. -/
theorem error_taxonomy (P : Primitives) (b : Bytes) (s : VoiceSettings) :
    ((∃ e, process_audio P b s = Except.error (PipelineError.decodeError e)) ↔
      (∃ e, P.load b = Except.error e)) ∧
    ((∃ pe, process_audio P b s = Except.error (PipelineError.processingError pe)) →
      (∃ a, P.load b = Except.ok a)) := by
  cases hl : P.load b with
  | error e =>
    have hres : process_audio P b s = Except.error (PipelineError.decodeError e) := by
      simp only [process_audio, hl]
    refine ⟨⟨fun _ => ⟨e, rfl⟩, fun _ => ⟨e, hres⟩⟩, fun hpe => ?_⟩
    obtain ⟨pe, hpe⟩ := hpe
    rw [hres] at hpe
    simp at hpe
  | ok a =>
    refine ⟨⟨fun hde => ?_, fun hee => ?_⟩, fun _ => ⟨a, rfl⟩⟩
    · obtain ⟨e, he⟩ := hde
      exfalso
      simp only [process_audio, hl] at he
      cases h1 : stretch_stage P s a with
      | error e1 => simp only [h1] at he; exact absurd he (by simp)
      | ok a1 =>
        simp only [h1] at he
        cases h2 : pitch_stage P s 44100 a1 with
        | error e2 => simp only [h2] at he; exact absurd he (by simp)
        | ok a2 => simp only [h2] at he; exact absurd he (by simp)
    · obtain ⟨e, he⟩ := hee
      exact absurd he (by simp)

/-- Witness for C5: undecodable (empty) bytes surface as a decode error. -/
theorem error_taxonomy_witness :
    prims0.load [] = Except.error DecodeErr.badContainer ∧
    (∃ e, process_audio prims0 [] settings0 =
      Except.error (PipelineError.decodeError e)) :=
  ⟨rfl, (error_taxonomy prims0 [] settings0).1.mpr ⟨DecodeErr.badContainer, rfl⟩⟩

/-- C6: each emphasis stage adds the causally filtered signal times its
gain onto the original sample-wise, with the Butterworth design invoked
at the cutoff normalized to Nyquist; timbre uses 2800 Hz high-pass with
gain `timbre / 80` when `timbre != 0`, depth 180 Hz low-pass with gain
`depth / 60` when `depth != 0`, clarity 3200 Hz high-pass with gain
`clarity / 120` when `clarity > 0`. -/
theorem filter_stage_structure (P : Primitives) (s : VoiceSettings) (audio : Audio)
    (sr cutoff gain : ℚ) (bt : BType) (i : ℕ) (hi : i < audio.length) :
    ((apply_filter P.butter audio sr cutoff bt gain).length = audio.length ∧
      (apply_filter P.butter audio sr cutoff bt gain).getD i 0 =
        audio.getD i 0 +
          (lfilter (P.butter (cutoff / (sr / 2)) bt) audio).getD i 0 * gain) ∧
    timbre_stage P s sr audio =
      (if s.timbre = 0 then audio
       else apply_filter P.butter audio sr 2800 BType.highpass (s.timbre / 80)) ∧
    depth_stage P s sr audio =
      (if s.depth = 0 then audio
       else apply_filter P.butter audio sr 180 BType.lowpass (s.depth / 60)) ∧
    clarity_stage P s sr audio =
      (if 0 < s.clarity then apply_filter P.butter audio sr 3200 BType.highpass (s.clarity / 120)
       else audio) := by
  refine ⟨⟨?_, ?_⟩, ?_, ?_, ?_⟩
  · simp [apply_filter, lfilter_length]
  · unfold apply_filter
    exact getD_zipWith_addMul gain audio _ i hi (by rw [lfilter_length]; exact hi)
  · by_cases h : s.timbre = 0 <;> simp [timbre_stage, h]
  · by_cases h : s.depth = 0 <;> simp [depth_stage, h]
  · by_cases h : 0 < s.clarity <;> simp [clarity_stage, h]

/-- Witness for C6: the filter structure on a concrete buffer with the
timbre, depth and clarity stages active. -/
theorem filter_stage_structure_witness :
    0 < sampleAudio.length ∧
    (((apply_filter prims0.butter sampleAudio 44100 2800 BType.highpass 1).length =
        sampleAudio.length ∧
      (apply_filter prims0.butter sampleAudio 44100 2800 BType.highpass 1).getD 0 0 =
        sampleAudio.getD 0 0 +
          (lfilter (prims0.butter (2800 / (44100 / 2)) BType.highpass) sampleAudio).getD 0 0 * 1) ∧
    timbre_stage prims0 filterSettings 44100 sampleAudio =
      (if filterSettings.timbre = 0 then sampleAudio
       else apply_filter prims0.butter sampleAudio 44100 2800 BType.highpass
         (filterSettings.timbre / 80)) ∧
    depth_stage prims0 filterSettings 44100 sampleAudio =
      (if filterSettings.depth = 0 then sampleAudio
       else apply_filter prims0.butter sampleAudio 44100 180 BType.lowpass
         (filterSettings.depth / 60)) ∧
    clarity_stage prims0 filterSettings 44100 sampleAudio =
      (if 0 < filterSettings.clarity then
        apply_filter prims0.butter sampleAudio 44100 3200 BType.highpass
          (filterSettings.clarity / 120)
       else sampleAudio)) :=
  ⟨by decide,
   filter_stage_structure prims0 filterSettings sampleAudio 44100 2800 1 BType.highpass 0
     (by decide)⟩

/-- C7: emotion saturation — when `emotion > 0` the stage maps
`tanh(x * (1 + emotion / 120))` over the buffer (identity otherwise),
and in the pipeline it runs after the timbre and depth filters and
before the noise gate. -/
theorem emotion_saturation (P : Primitives) (b : Bytes) (s : VoiceSettings)
    (eaudio a0 a1 a2 : Audio)
    (hload : P.load b = Except.ok a0)
    (hstretch : stretch_stage P s a0 = Except.ok a1)
    (hpitch : pitch_stage P s 44100 a1 = Except.ok a2) :
    emotion_stage P s eaudio =
      (if 0 < s.emotion then eaudio.map (fun x => P.tanh (x * (1 + s.emotion / 120)))
       else eaudio) ∧
    process_audio P b s =
      Except.ok (P.encodeWav (safe_normalize (clarity_stage P s 44100 (gate_stage s
        (emotion_stage P s (depth_stage P s 44100 (timbre_stage P s 44100 a2)))))) 44100) := by
  constructor
  · by_cases h : 0 < s.emotion <;> simp [emotion_stage, h]
  · simp only [process_audio, hload, hstretch, hpitch]

/-- Witness for C7: a concrete run with emotion 50 and every other stage
inactive. -/
theorem emotion_saturation_witness :
    prims0.load [1] = Except.ok sampleAudio ∧
    stretch_stage prims0 emoSettings sampleAudio = Except.ok sampleAudio ∧
    pitch_stage prims0 emoSettings 44100 sampleAudio = Except.ok sampleAudio ∧
    (emotion_stage prims0 emoSettings sampleAudio =
        (if 0 < emoSettings.emotion then
          sampleAudio.map (fun x => prims0.tanh (x * (1 + emoSettings.emotion / 120)))
         else sampleAudio) ∧
      process_audio prims0 [1] emoSettings =
        Except.ok (prims0.encodeWav (safe_normalize (clarity_stage prims0 emoSettings 44100
          (gate_stage emoSettings (emotion_stage prims0 emoSettings
            (depth_stage prims0 emoSettings 44100
              (timbre_stage prims0 emoSettings 44100 sampleAudio)))))) 44100)) :=
  ⟨rfl, by simp [stretch_stage, emoSettings], by simp [pitch_stage, emoSettings],
   emotion_saturation prims0 [1] emoSettings sampleAudio sampleAudio sampleAudio sampleAudio
     rfl (by simp [stretch_stage, emoSettings]) (by simp [pitch_stage, emoSettings])⟩
